import Mathlib

/-!
Verification of the Pythia insight-generation core against its specification.

Python floats are embedded as rationals (`ℚ`); the only irrational
computation in the core, numpy's standard deviation, is embedded with
`Real.sqrt`.  Fallible Python code (functions that may raise) is embedded
with `Except`.  Wall-clock timing, UUIDs and timestamps carried by the
response envelope are runtime-environment data with no decision logic and
are left out of the embedded records (`processing_time_ms` is fixed to 0).
-/

namespace Pythia

/-! ## Python numeric helpers

`round(x, 2)` in Python rounds to two decimal places with ties to even. -/

/-- Round a rational to the nearest integer, ties to even
(the rounding mode of Python's built-in `round`). -/
def roundHalfEven (x : ℚ) : ℤ :=
  let f : ℤ := ⌊x⌋
  let r : ℚ := x - (f : ℚ)
  if r < 1/2 then f
  else if 1/2 < r then f + 1
  else if f % 2 = 0 then f else f + 1

/-- Embedding of Python `round(x, 2)`. -/
def round2 (x : ℚ) : ℚ := ((roundHalfEven (x * 100) : ℤ) : ℚ) / 100

/-- Embedding of the Python format `f"{x:.1f}"` for a nonnegative value
(the code only formats `abs(...)` quantities this way). -/
def fmt1 (x : ℚ) : String :=
  let n : ℤ := roundHalfEven (x * 10)
  toString (n / 10) ++ "." ++ toString (n % 10)

/-- Embedding of Python `str` on a float.  The code interpolates raw values
into diagnostic strings only; no claim inspects these substrings, so the
decimal rendering of non-integers is simplified to the rational's print
form, while integral values keep Python's `"<n>.0"` shape. -/
def pyStr (q : ℚ) : String :=
  if q.den = 1 then toString q.num ++ ".0" else toString q

/-! ## Data model (`app/models/schemas.py`, `app/config.py`) -/

inductive Severity
  | critical
  | high
  | medium
  | low
deriving DecidableEq, Repr

/-- The string literal each severity tier denotes in the Python code. -/
def Severity.str : Severity → String
  | .critical => "critical"
  | .high => "high"
  | .medium => "medium"
  | .low => "low"

/-- The fields of `Settings` consumed by the insight core
(defaults from `app/config.py`). -/
structure Settings where
  llm_provider : String
  llm_max_retries : ℕ
  severity_threshold_critical : ℚ
  severity_threshold_high : ℚ
  severity_threshold_medium : ℚ
deriving DecidableEq, Repr

/-- Default `Settings()` values from `app/config.py`. -/
def defaultSettings : Settings :=
  { llm_provider := "gemini"
    llm_max_retries := 3
    severity_threshold_critical := 50
    severity_threshold_high := 25
    severity_threshold_medium := 10 }

structure FeatureSet where
  previous_value : ℚ
  current_value : ℚ
  change_absolute : ℚ
  change_percent : ℚ
  severity : Severity
deriving DecidableEq, Repr

/-- Caller-supplied severity thresholds (`context.thresholds`); every key is
optional, mirroring `thresholds.get('critical', 50)` etc. -/
structure ThresholdDict where
  critical : Option ℚ
  high : Option ℚ
  medium : Option ℚ
deriving DecidableEq, Repr

structure ContextConfig where
  baseline : Option ℚ
  thresholds : Option ThresholdDict
deriving DecidableEq, Repr

structure InsightOutput where
  summary : String
  severity : Severity
  confidence : ℚ
  recommended_actions : List String
  key_findings : List String
deriving DecidableEq, Repr

structure InputSummary where
  metric_name : String
  data_points_count : ℕ
deriving DecidableEq, Repr

structure ResponseMetadata where
  processing_time_ms : ℕ
  llm_provider : String
  model_version : String
  fallback_used : Bool
deriving DecidableEq, Repr

structure InsightResponse where
  user_id : String
  tenant_id : String
  input_summary : InputSummary
  features : FeatureSet
  insight : InsightOutput
  metadata : ResponseMetadata
deriving DecidableEq, Repr

/-- The validated request payload variants.  `metric_name` and
`series_name` are kept optional to mirror the `dict.get` accesses in the
service code. -/
inductive RequestData
  | metrics (metric_name : Option String) (values : List ℚ)
  | text (content : String)
  | timeseries (series_name : Option String)
deriving DecidableEq, Repr

structure InsightRequest where
  user_id : String
  tenant_id : String
  data : RequestData
  context : Option ContextConfig
deriving DecidableEq, Repr

/-! ## FeatureExtractor (`app/services/feature_extractor.py`) -/

/-- `FeatureExtractor.extract_from_metrics`.  Raising `ValueError` is
embedded as `Except.error`. -/
def extract_from_metrics (settings : Settings) (values : List ℚ)
    (context : Option ContextConfig) : Except String FeatureSet :=
  if values.length < 2 then .error "Need at least 2 values for comparison"
  else
    let previous_value := values.getD (values.length - 2) 0
    let current_value := values.getD (values.length - 1) 0
    let change_absolute := current_value - previous_value
    let change_percent : ℚ :=
      if previous_value = 0 then
        if current_value = 0 then 0
        else if 0 < current_value then 1000 else -1000
      else (change_absolute / previous_value) * 100
    let tdict := context.bind (fun c => c.thresholds)
    let tc : ℚ := match tdict with
      | none => settings.severity_threshold_critical
      | some t => t.critical.getD 50
    let th : ℚ := match tdict with
      | none => settings.severity_threshold_high
      | some t => t.high.getD 25
    let tm : ℚ := match tdict with
      | none => settings.severity_threshold_medium
      | some t => t.medium.getD 10
    let abs_change := |change_percent|
    let severity :=
      if tc ≤ abs_change then Severity.critical
      else if th ≤ abs_change then Severity.high
      else if tm ≤ abs_change then Severity.medium
      else Severity.low
    .ok { previous_value := previous_value
          current_value := current_value
          change_absolute := round2 change_absolute
          change_percent := round2 change_percent
          severity := severity }

/-- `FeatureExtractor.extract_from_text`.  Python `text.split()` splits on
whitespace runs; `kw in text.lower()` is a substring test, embedded via
`splitOn` (a nonempty pattern occurs iff `splitOn` yields ≥ 2 pieces). -/
def extract_from_text (text : String) : FeatureSet :=
  let word_count := ((text.split Char.isWhitespace).filter (fun w => w ≠ "")).length
  let urgency_keywords := ["urgent", "critical", "emergency", "immediate"]
  let severity :=
    if urgency_keywords.any (fun kw => 2 ≤ (text.toLower.splitOn kw).length)
    then Severity.high else Severity.medium
  { previous_value := 0
    current_value := (word_count : ℚ)
    change_absolute := (word_count : ℚ)
    change_percent := 0
    severity := severity }

/-! ## AnomalyDetector (`app/services/anomaly_detector.py`) -/

/-- The diagnostic entries of `AnomalyResult.details` that the claims
inspect (`error`, `note`, `current_value`); the remaining entries are
free-text/derived diagnostics repeated from the numbered fields. -/
structure AnomalyDetails where
  error : Option String
  note : Option String
  current_value : Option ℚ
deriving DecidableEq, Repr

/-- The `AnomalyResult` dataclass, parametrised by the number type of the
score: `ℝ` for the z-score method (whose score involves a square root) and
`ℚ` for the IQR method (pure rational arithmetic). -/
structure AnomalyResult (α : Type) where
  is_anomaly : Bool
  z_score : α
  method : String
  details : AnomalyDetails
deriving DecidableEq, Repr

/-- `np.mean` over the embedded list. -/
def listMean (values : List ℚ) : ℚ := values.sum / (values.length : ℚ)

/-- The population variance, i.e. the square of `np.std`. -/
def listVariance (values : List ℚ) : ℚ :=
  ((values.map (fun v => (v - listMean values) ^ 2)).sum) / (values.length : ℚ)

open Classical in
/-- `AnomalyDetector.z_score_detection`.  `np.std` is the square root of
the population variance, hence the result lives in `ℝ`. -/
noncomputable def z_score_detection (values : List ℚ) (threshold : ℚ) :
    AnomalyResult ℝ :=
  if values.length < 3 then
    { is_anomaly := false, z_score := 0, method := "z_score"
      details := { error := some "Insufficient data for z-score"
                   note := none, current_value := none } }
  else
    let mean := listMean values
    let std : ℝ := Real.sqrt ((listVariance values : ℚ) : ℝ)
    if std = 0 then
      { is_anomaly := false, z_score := 0, method := "z_score"
        details := { error := none, note := some "No variance in data"
                     current_value := none } }
    else
      let current_value := values.getD (values.length - 1) 0
      let z : ℝ := (((current_value : ℚ) : ℝ) - ((mean : ℚ) : ℝ)) / std
      { is_anomaly := if (threshold : ℝ) < |z| then true else false
        z_score := z
        method := "z_score"
        details := { error := none, note := none
                     current_value := some current_value } }

/-- Insertion of one element into an ascending list (helper for the sort
performed by `np.percentile`/`np.median`). -/
def insertSorted (a : ℚ) : List ℚ → List ℚ
  | [] => [a]
  | b :: t => if a ≤ b then a :: b :: t else b :: insertSorted a t

/-- Ascending sort of the data, as performed internally by
`np.percentile`/`np.median`. -/
def sortAsc (l : List ℚ) : List ℚ := l.foldr insertSorted []

/-- `np.percentile(values, q)` with the default linear interpolation:
rank `(n-1)·q/100`, interpolating between the two neighbouring order
statistics. -/
def percentile (values : List ℚ) (q : ℚ) : ℚ :=
  let sorted := sortAsc values
  let rank : ℚ := ((values.length : ℚ) - 1) * q / 100
  let lo : ℕ := (⌊rank⌋).toNat
  let frac : ℚ := rank - ((⌊rank⌋ : ℤ) : ℚ)
  let x := sorted.getD lo 0
  let y := sorted.getD (lo + 1) x
  x + frac * (y - x)

/-- `np.median`, which coincides with the 50th percentile under linear
interpolation (for even lengths both average the two middle order
statistics). -/
def medianQ (values : List ℚ) : ℚ := percentile values 50

/-- `AnomalyDetector.iqr_detection`.  The Python literal `1.35` is the
rational `27/20`. -/
def iqr_detection (values : List ℚ) (multiplier : ℚ) : AnomalyResult ℚ :=
  if values.length < 4 then
    { is_anomaly := false, z_score := 0, method := "iqr"
      details := { error := some "Need at least 4 values for IQR"
                   note := none, current_value := none } }
  else
    let q1 := percentile values 25
    let q3 := percentile values 75
    let iqr := q3 - q1
    let lower_bound := q1 - multiplier * iqr
    let upper_bound := q3 + multiplier * iqr
    let current_value := values.getD (values.length - 1) 0
    let is_anomaly : Bool :=
      decide (current_value < lower_bound) || decide (upper_bound < current_value)
    let z_equiv : ℚ :=
      if 0 < iqr then |current_value - medianQ values| / (iqr / (27/20)) else 0
    { is_anomaly := is_anomaly
      z_score := z_equiv
      method := "iqr"
      details := { error := none, note := none
                   current_value := some current_value } }

/-! ## InsightService (`app/services/insight_service.py`)

The model client is an external collaborator: its `generate` method is
embedded as a function of the attempt index and the prompt, returning
either the generated text or the raised error's message.  JSON
parsing/validation of model text is likewise opaque to the core and is
embedded as an oracle. -/

/-- The `LLMClient` collaborator: per-attempt outcome of `generate`, plus
`get_model_name`. -/
structure ModelClient where
  generate : ℕ → String → Except String String
  model_name : String

/-- Oracle for the opaque JSON layer: `isValidJson r` is whether
`json.loads(r)` succeeds, `decodeErrMsg r` is `str` of the raised decode
error otherwise, and `parseInsight r` is the result of
`InsightOutput(**json.loads(r))`, `none` when parsing or field validation
fails. -/
structure JsonOracle where
  isValidJson : String → Bool
  decodeErrMsg : String → String
  parseInsight : String → Option InsightOutput

/-- Oracle for `PromptBuilder.build_insight_prompt`: a deterministic
template of the metric name, features, raw input data and the optional
anomaly result.  No claim inspects the prompt body, only how the retry
loop extends it. -/
structure PromptOracle where
  build : String → FeatureSet → RequestData → Option (AnomalyResult ℝ) → String

/-- The note appended to the prompt after a failed attempt
(`insight_service.py`, retry loop). -/
def failNote (e : String) : String :=
  "\n\nPREVIOUS ATTEMPT FAILED: " ++ e ++ "\nEnsure output is valid JSON."

/-- The Python exception kinds `generate_insight` can observe. -/
inductive PyError
  | valueError (msg : String)
  | attributeError (msg : String)
  | llmFailure (msg : String)
deriving DecidableEq, Repr

/-- Which path produced the final `InsightOutput` (ghost provenance
instrumentation of the orchestrator). -/
inductive InsightSource
  | fromFallback
  | fromLLM
deriving DecidableEq, Repr

/-- The prompt refinement step at the top of each retry-loop iteration:
`if attempt > 0 and last_error:` tests Python string truthiness, so a
missing or empty previous error leaves the prompt unchanged. -/
def resolve_prompt (attempt : ℕ) (prompt0 : String) (last_error : Option String) :
    String :=
  match last_error with
  | some e => if 0 < attempt ∧ e ≠ "" then prompt0 ++ failNote e else prompt0
  | none => prompt0

/-- The body of `InsightService._call_llm_with_retry`: `remaining` counts
the loop iterations left (initially `max_retries`), `attempt` the 0-based
index.  Besides the Python result, the embedding returns the list of
prompts passed to `generate`, one entry per call, as a ghost trace. -/
def retry_loop (client : ModelClient) (o : JsonOracle) :
    ℕ → ℕ → String → Option String → Except String String × List String
  | 0, _, _, _ => (.error "LLM retry limit exceeded", [])
  | remaining + 1, attempt, prompt0, last_error =>
    let prompt := resolve_prompt attempt prompt0 last_error
    match client.generate attempt prompt with
    | .ok resp =>
      if o.isValidJson resp then (.ok resp, [prompt])
      else if remaining = 0 then (.error (o.decodeErrMsg resp), [prompt])
      else
        let r := retry_loop client o remaining (attempt + 1) prompt
          (some (o.decodeErrMsg resp))
        (r.1, prompt :: r.2)
    | .error e =>
      if remaining = 0 then (.error e, [prompt])
      else
        let r := retry_loop client o remaining (attempt + 1) prompt (some e)
        (r.1, prompt :: r.2)

/-- `InsightService._call_llm_with_retry`. -/
def call_llm_with_retry (client : ModelClient) (o : JsonOracle)
    (max_retries : ℕ) (prompt : String) : Except String String × List String :=
  retry_loop client o max_retries 0 prompt none

/-- `InsightService._generate_fallback_insight`. -/
def generate_fallback_insight (features : FeatureSet) (metric_name : String) :
    InsightOutput :=
  let direction := if 0 < features.change_percent then "increase" else "decrease"
  let action_verb :=
    if 0 < features.change_percent then "investigate the cause of this growth"
    else "identify factors driving this decline"
  let summary :=
    metric_name ++ " experienced a " ++ fmt1 (abs features.change_percent) ++
    "% " ++ direction ++ " from " ++ pyStr features.previous_value ++ " to " ++
    pyStr features.current_value ++ ". This change has been classified as " ++
    features.severity.str ++ " severity based on historical thresholds."
  { summary := summary
    severity := features.severity
    confidence := 3/5  -- the Python literal 0.60
    recommended_actions :=
      [ "Review " ++ metric_name ++ " data for the past 7 days to identify patterns"
      , "Verify data quality and check for any anomalies in data collection"
      , "Consult with relevant teams to " ++ action_verb ]
    key_findings :=
      [ fmt1 (abs features.change_percent) ++ "% change detected"
      , "Current value: " ++ pyStr features.current_value
      , "Analysis based on rule-based thresholds (LLM unavailable)" ] }

/-- `InsightService._extract_features`: routes `metrics` input to
`extract_from_metrics` (raising `ValueError` on fewer than two values);
the `text`/`timeseries` input types have no branch, so the Python function
falls through and returns `None`. -/
def extract_features (settings : Settings) (rq : InsightRequest) :
    Except String (Option FeatureSet) :=
  match rq.data with
  | .metrics _ values =>
    if values.isEmpty || values.length < 2 then
      .error "Need at least 2 values in data.values"
    else (extract_from_metrics settings values rq.context).map some
  | _ => .ok none

/-- `InsightService._get_metric_name`.  `if not metric_name:` is Python
truthiness, so a missing or empty name yields `"Unknown Metric"`. -/
def get_metric_name (rq : InsightRequest) : String :=
  match rq.data with
  | .metrics name _ =>
    match name with
    | none => "Unknown Metric"
    | some s => if s = "" then "Unknown Metric" else s
  | .text _ => "Text Analysis"
  | .timeseries name => name.getD "Time Series"

/-- `len(request.data.get('values', [1, 2]))` in the response assembly:
only the `metrics` payload carries a `values` key. -/
def data_points_count (rq : InsightRequest) : ℕ :=
  match rq.data with
  | .metrics _ values => values.length
  | _ => 2

/-- The zeroed `FeatureSet` the outer failure handler synthesizes when the
`features` local was never assigned. -/
def zeroedFeatureSet : FeatureSet :=
  { previous_value := 0, current_value := 0, change_absolute := 0
    change_percent := 0, severity := Severity.low }

/-- Step 5 of `generate_insight`: the response envelope (wall-clock
`processing_time_ms` is abstracted to 0). -/
def assemble_response (settings : Settings) (client : ModelClient)
    (rq : InsightRequest) (features : FeatureSet) (metric_name : String)
    (insight : InsightOutput) (fallback_used : Bool) : InsightResponse :=
  { user_id := rq.user_id
    tenant_id := rq.tenant_id
    input_summary := { metric_name := metric_name
                       data_points_count := data_points_count rq }
    features := features
    insight := insight
    metadata := { processing_time_ms := 0
                  llm_provider := settings.llm_provider
                  model_version := client.model_name
                  fallback_used := fallback_used } }

/-- Steps 3–4 of `generate_insight`: invoke the model with retries, then
validate and parse the accepted text into an `InsightOutput`, falling back
to the rule-based insight when the loop raised or parsing/validation
failed. -/
def llm_phase (settings : Settings) (client : ModelClient) (o : JsonOracle)
    (rq : InsightRequest) (features : FeatureSet) (metric_name : String)
    (prompt : String) :
    Except PyError (InsightResponse × InsightSource × List String) :=
  let r := call_llm_with_retry client o settings.llm_max_retries prompt
  match r.1 with
  | .error _ =>
    .ok (assemble_response settings client rq features metric_name
           (generate_fallback_insight features metric_name) true,
         .fromFallback, r.2)
  | .ok llm_output =>
    match o.parseInsight llm_output with
    | none =>
      .ok (assemble_response settings client rq features metric_name
             (generate_fallback_insight features metric_name) true,
           .fromFallback, r.2)
    | some insight =>
      .ok (assemble_response settings client rq features metric_name insight
             false, .fromLLM, r.2)

/-- `InsightService.generate_insight`, with ghost provenance and the list
of prompts sent to the model.  Control flow mirrors the Python source:

* extraction `ValueError` is caught by the outer `except Exception`; the
  `features` local was never assigned, so `'features' not in locals()`
  holds and a zeroed `FeatureSet` is synthesized, then the fallback
  insight is built and the response returned with `fallback_used=True`;
* extraction returning `None` (text/timeseries input) assigns the
  `features` local, so after the `AttributeError` from `features.dict()`
  the outer handler skips the zeroed synthesis, and
  `_generate_fallback_insight(None, ...)` raises `AttributeError` on
  `features.change_percent`, which propagates to the caller;
* otherwise anomaly detection runs for metrics input with ≥ 3 values
  (feeding only the prompt), the retry loop runs, and a failed loop or
  unparseable accepted text selects the fallback insight. -/
noncomputable def generate_insight (settings : Settings) (client : ModelClient)
    (o : JsonOracle) (pb : PromptOracle) (rq : InsightRequest) :
    Except PyError (InsightResponse × InsightSource × List String) :=
  match extract_features settings rq with
  | .error _ =>
    let features := zeroedFeatureSet
    let metric_name := get_metric_name rq
    let insight := generate_fallback_insight features metric_name
    .ok (assemble_response settings client rq features metric_name insight true,
         .fromFallback, [])
  | .ok none =>
    .error (.attributeError "'NoneType' object has no attribute 'change_percent'")
  | .ok (some features) =>
    let metric_name := get_metric_name rq
    let anomaly : Option (AnomalyResult ℝ) :=
      match rq.data with
      | .metrics _ values =>
        if 3 ≤ values.length then some (z_score_detection values 3) else none
      | _ => none
    let prompt := pb.build metric_name features rq.data anomaly
    llm_phase settings client o rq features metric_name prompt

/-! ## Spec-side definitions

These follow the specification's wording, to be compared against the
functions embedded from the source. -/

/-- The percent-change rule as the spec words it (§4.1): the three-case
zero-previous-value policy, otherwise the relative change in percent. -/
def rawChangePercent (values : List ℚ) : ℚ :=
  let p := values.getD (values.length - 2) 0
  let c := values.getD (values.length - 1) 0
  if p = 0 then (if c = 0 then 0 else if 0 < c then 1000 else -1000)
  else (c - p) / p * 100

/-- The severity cascade as the spec words it: strict priority
critical, high, medium, else low, inclusive (`≥`) at each boundary. -/
def severitySpec (a tc th tm : ℚ) : Severity :=
  if tc ≤ a then .critical
  else if th ≤ a then .high
  else if tm ≤ a then .medium
  else .low

/-- The effective thresholds as the spec words them: caller-supplied
thresholds override per tier, with defaults critical=50, high=25,
medium=10; without a caller override the configured settings apply. -/
def resolvedThresholds (settings : Settings) (context : Option ContextConfig) :
    ℚ × ℚ × ℚ :=
  match context.bind (fun c => c.thresholds) with
  | none => (settings.severity_threshold_critical,
             settings.severity_threshold_high,
             settings.severity_threshold_medium)
  | some t => (t.critical.getD 50, t.high.getD 25, t.medium.getD 10)

/-! ## Concrete collaborator stubs used in witnesses and counterexamples -/

/-- A model client whose `generate` always fails. -/
def clientStub : ModelClient := ⟨fun _ _ => .error "boom", "mock-model"⟩

/-- A model client that always succeeds with a fixed text. -/
def clientOkStub : ModelClient := ⟨fun _ _ => .ok "{}", "mock-model"⟩

/-- A JSON oracle under which no text is valid JSON. -/
def oracleStub : JsonOracle := ⟨fun _ => false, fun _ => "decode error", fun _ => none⟩

/-- A fixed structurally-valid insight, for the accepting oracle. -/
def insightStub : InsightOutput :=
  { summary := "ok", severity := Severity.low, confidence := 1/2
    recommended_actions := ["a", "b"], key_findings := ["c", "d"] }

/-- A JSON oracle under which every text is valid JSON and parses to
`insightStub`. -/
def oracleOkStub : JsonOracle :=
  ⟨fun _ => true, fun _ => "decode error", fun _ => some insightStub⟩

/-- A prompt builder producing a fixed prompt. -/
def promptStub : PromptOracle := ⟨fun _ _ _ _ => "PROMPT"⟩

/-- A metrics request with a single value (fewer than 2). -/
def rqShort : InsightRequest :=
  ⟨"u1", "t1", .metrics (some "cpu_usage") [5], none⟩

/-- A well-formed metrics request with two values. -/
def rqTwo : InsightRequest :=
  ⟨"u1", "t1", .metrics (some "cpu_usage") [100, 50], none⟩

/-- A text request. -/
def rqText : InsightRequest := ⟨"u1", "t1", .text "hello world", none⟩

/-! ## Helper lemmas -/

/-- `roundHalfEven` fixes integers. -/
theorem roundHalfEven_intCast (n : ℤ) : roundHalfEven (n : ℚ) = n := by
  unfold roundHalfEven
  norm_num

/-- `round2` fixes rationals that are integer multiples of `1/100`. -/
theorem round2_eq_of_den (x : ℚ) (h : (x * 100).den = 1) : round2 x = x := by
  have hx : ((x * 100).num : ℚ) = x * 100 := by
    conv_rhs => rw [← Rat.num_div_den (x * 100)]
    rw [h]
    simp
  unfold round2
  rw [← hx, roundHalfEven_intCast, hx]
  field_simp

/-- Feature extraction succeeds on any list of at least two values. -/
theorem extract_from_metrics_ok (settings : Settings) (values : List ℚ)
    (context : Option ContextConfig) (h : 2 ≤ values.length) :
    ∃ fs, extract_from_metrics settings values context = .ok fs := by
  unfold extract_from_metrics
  rw [if_neg (by omega)]
  exact ⟨_, rfl⟩

/-- Closed form of `extract_from_metrics` on a list of at least two
values, with the severity expressed through the spec-side cascade. -/
theorem extract_from_metrics_fields (settings : Settings) (values : List ℚ)
    (context : Option ContextConfig) (h : 2 ≤ values.length) :
    extract_from_metrics settings values context =
      .ok { previous_value := values.getD (values.length - 2) 0
            current_value := values.getD (values.length - 1) 0
            change_absolute := round2 (values.getD (values.length - 1) 0 -
              values.getD (values.length - 2) 0)
            change_percent := round2 (rawChangePercent values)
            severity := severitySpec |rawChangePercent values|
              (resolvedThresholds settings context).1
              (resolvedThresholds settings context).2.1
              (resolvedThresholds settings context).2.2 } := by
  unfold extract_from_metrics rawChangePercent severitySpec resolvedThresholds
  rw [if_neg (by omega)]
  cases hctx : context.bind (fun c => c.thresholds) <;> simp only [hctx]

/-- C5: for every values list with at least 2 elements,
`extract_from_metrics` computes `changePercent` by the exact three-case
rule — 0 when both of the last two values are 0, `+1000` (resp. `-1000`)
when the previous value is 0 and the current is positive (resp. negative),
otherwise the relative change times 100 rounded to 2 decimal places; and
`[0,100]` yields `changePercent = 1000` with severity `critical` while
`[0,-100]` yields `-1000`. -/
theorem C5_change_percent_rule :
    (∀ (settings : Settings) (values : List ℚ) (context : Option ContextConfig),
      2 ≤ values.length →
      ∃ fs, extract_from_metrics settings values context = .ok fs ∧
        fs.change_percent =
          (if values.getD (values.length - 2) 0 = 0 then
            (if values.getD (values.length - 1) 0 = 0 then 0
             else if 0 < values.getD (values.length - 1) 0 then 1000 else -1000)
           else round2 ((values.getD (values.length - 1) 0 -
             values.getD (values.length - 2) 0) /
             values.getD (values.length - 2) 0 * 100)))
    ∧ extract_from_metrics defaultSettings [0, 100] none =
        .ok ⟨0, 100, 100, 1000, Severity.critical⟩
    ∧ extract_from_metrics defaultSettings [0, -100] none =
        .ok ⟨0, -100, -100, -1000, Severity.critical⟩ := by
  refine ⟨?_, ?_, ?_⟩
  · intro settings values context h
    refine ⟨_, extract_from_metrics_fields settings values context h, ?_⟩
    simp only [rawChangePercent]
    by_cases hp : values.getD (values.length - 2) 0 = 0
    · rw [if_pos hp, if_pos hp]
      by_cases hc : values.getD (values.length - 1) 0 = 0
      · simp only [if_pos hc]; norm_num [round2, roundHalfEven]
      · simp only [if_neg hc]
        by_cases hcpos : 0 < values.getD (values.length - 1) 0
        · simp only [if_pos hcpos]; norm_num [round2, roundHalfEven]
        · simp only [if_neg hcpos]; norm_num [round2, roundHalfEven]
    · rw [if_neg hp, if_neg hp]
  · rw [extract_from_metrics_fields defaultSettings [0, 100] none (by norm_num)]
    norm_num [rawChangePercent, severitySpec, resolvedThresholds, defaultSettings,
              round2, roundHalfEven]
  · rw [extract_from_metrics_fields defaultSettings [0, -100] none (by norm_num)]
    norm_num [rawChangePercent, severitySpec, resolvedThresholds, defaultSettings,
              round2, roundHalfEven]

/-- Witness for C5 at the concrete input `[0, 100]`. -/
theorem C5_change_percent_rule_witness :
    ∃ fs, extract_from_metrics defaultSettings [0, 100] none = .ok fs ∧
      fs.change_percent =
        (if ([0, 100] : List ℚ).getD 0 0 = 0 then
          (if ([0, 100] : List ℚ).getD 1 0 = 0 then 0
           else if 0 < ([0, 100] : List ℚ).getD 1 0 then 1000 else -1000)
         else round2 ((([0, 100] : List ℚ).getD 1 0 -
           ([0, 100] : List ℚ).getD 0 0) / ([0, 100] : List ℚ).getD 0 0 * 100)) :=
  C5_change_percent_rule.1 defaultSettings [0, 100] none (by decide)

/-- C6: `extract_from_metrics` classifies severity from the magnitude of
the (raw) percent change against the resolved thresholds — caller-supplied
thresholds override each tier independently (with per-key defaults 50/25/10),
otherwise the configured settings (defaults critical=50, high=25,
medium=10) apply — in strict priority order with inclusive `≥`
comparisons; in particular a change of exactly the critical threshold
(`[100,150]`, +50%) classifies as `critical`, and under a caller override
raising only `critical` to 60 the same change classifies as `high`. -/
theorem C6_severity_classification :
    (∀ (settings : Settings) (values : List ℚ) (context : Option ContextConfig),
      2 ≤ values.length →
      ∃ fs, extract_from_metrics settings values context = .ok fs ∧
        fs.severity = severitySpec |rawChangePercent values|
          (resolvedThresholds settings context).1
          (resolvedThresholds settings context).2.1
          (resolvedThresholds settings context).2.2)
    ∧ (extract_from_metrics defaultSettings [100, 150] none).map (·.severity) =
        .ok Severity.critical
    ∧ (extract_from_metrics defaultSettings [100, 150]
        (some ⟨none, some ⟨some 60, none, none⟩⟩)).map (·.severity) =
        .ok Severity.high := by
  refine ⟨?_, ?_, ?_⟩
  · intro settings values context h
    exact ⟨_, extract_from_metrics_fields settings values context h, rfl⟩
  · rw [extract_from_metrics_fields defaultSettings [100, 150] none (by norm_num)]
    norm_num [rawChangePercent, severitySpec, resolvedThresholds, defaultSettings,
              Except.map]
  · rw [extract_from_metrics_fields defaultSettings [100, 150]
        (some ⟨none, some ⟨some 60, none, none⟩⟩) (by norm_num)]
    norm_num [rawChangePercent, severitySpec, resolvedThresholds, defaultSettings,
              Except.map]

/-- Witness for C6 at the concrete input `[100, 150]`. -/
theorem C6_severity_classification_witness :
    ∃ fs, extract_from_metrics defaultSettings [100, 150] none = .ok fs ∧
      fs.severity = severitySpec |rawChangePercent [100, 150]|
        (resolvedThresholds defaultSettings none).1
        (resolvedThresholds defaultSettings none).2.1
        (resolvedThresholds defaultSettings none).2.2 :=
  C6_severity_classification.1 defaultSettings [100, 150] none (by decide)

/-- C7 counterexample: on `[0, 0.125]` the returned `changeAbsolute` is
`round(0.125, 2) = 0.12`, not the exact difference `0.125`. -/
theorem C7_counterexample :
    extract_from_metrics defaultSettings [0, 1/8] none =
      .ok ⟨0, 1/8, 3/25, 1000, Severity.critical⟩ ∧
    (3/25 : ℚ) ≠ 1/8 - 0 := by
  constructor
  · rw [extract_from_metrics_fields defaultSettings [0, 1/8] none (by norm_num)]
    norm_num [rawChangePercent, severitySpec, resolvedThresholds, defaultSettings,
              round2, roundHalfEven]
  · norm_num

/-- C7 (amended): the returned `changeAbsolute` is the exact difference
`currentValue − previousValue` rounded to 2 decimal places (ties to even);
it equals the exact difference whenever that difference is an integer
multiple of 1/100. -/
theorem C7_change_absolute_rounded :
    ∀ (settings : Settings) (values : List ℚ) (context : Option ContextConfig),
      2 ≤ values.length →
      ∃ fs, extract_from_metrics settings values context = .ok fs ∧
        fs.change_absolute = round2 (values.getD (values.length - 1) 0 -
          values.getD (values.length - 2) 0) ∧
        (((values.getD (values.length - 1) 0 -
            values.getD (values.length - 2) 0) * 100).den = 1 →
          fs.change_absolute = values.getD (values.length - 1) 0 -
            values.getD (values.length - 2) 0) := by
  intro settings values context h
  refine ⟨_, extract_from_metrics_fields settings values context h, rfl, ?_⟩
  intro hden
  exact round2_eq_of_den _ hden

/-- Witness for C7's amended theorem at the concrete input `[100, 50]`. -/
theorem C7_change_absolute_rounded_witness :
    ∃ fs, extract_from_metrics defaultSettings [100, 50] none = .ok fs ∧
      fs.change_absolute = round2 (([100, 50] : List ℚ).getD 1 0 -
        ([100, 50] : List ℚ).getD 0 0) ∧
      (((([100, 50] : List ℚ).getD 1 0 -
          ([100, 50] : List ℚ).getD 0 0) * 100).den = 1 →
        fs.change_absolute = ([100, 50] : List ℚ).getD 1 0 -
          ([100, 50] : List ℚ).getD 0 0) :=
  C7_change_absolute_rounded defaultSettings [100, 50] none (by decide)

/-- C9: `iqr_detection` with multiplier 1.5 requires at least 4 values
(otherwise a non-anomalous diagnostic result); on at least 4 values it
flags an anomaly exactly when the last value lies outside
`[Q1 − m·IQR, Q3 + m·IQR]` with Q1/Q3 the 25th/75th percentiles of the
full sequence, reports `zScore = |last − median| / (IQR/1.35)` when
`IQR > 0` and 0 otherwise, and reports the current value; on
`[100,105,110,108,112,115,120,500]` it returns an anomaly with reported
current value 500. -/
theorem C9_iqr_detection_spec :
    (∀ (values : List ℚ) (multiplier : ℚ), values.length < 4 →
      iqr_detection values multiplier =
        { is_anomaly := false, z_score := 0, method := "iqr"
          details := { error := some "Need at least 4 values for IQR"
                       note := none, current_value := none } })
    ∧ (∀ (values : List ℚ) (multiplier : ℚ), 4 ≤ values.length →
        ((iqr_detection values multiplier).is_anomaly = true ↔
          values.getD (values.length - 1) 0 <
            percentile values 25 -
              multiplier * (percentile values 75 - percentile values 25) ∨
          percentile values 75 +
              multiplier * (percentile values 75 - percentile values 25) <
            values.getD (values.length - 1) 0)
        ∧ (iqr_detection values multiplier).z_score =
            (if 0 < percentile values 75 - percentile values 25 then
              |values.getD (values.length - 1) 0 - medianQ values| /
                ((percentile values 75 - percentile values 25) / (27/20))
             else 0)
        ∧ (iqr_detection values multiplier).details.current_value =
            some (values.getD (values.length - 1) 0))
    ∧ (iqr_detection [100, 105, 110, 108, 112, 115, 120, 500] (3/2)).is_anomaly
        = true
    ∧ (iqr_detection [100, 105, 110, 108, 112, 115, 120, 500]
        (3/2)).details.current_value = some 500 := by
  have h1 : percentile [100, 105, 110, 108, 112, 115, 120, 500] 25 = 429/4 := by
    norm_num [percentile, sortAsc, insertSorted, Int.toNat]
  have h3 : percentile [100, 105, 110, 108, 112, 115, 120, 500] 75 = 465/4 := by
    norm_num [percentile, sortAsc, insertSorted, Int.toNat]
  refine ⟨?_, ?_, ?_, ?_⟩
  · intro values multiplier h
    unfold iqr_detection
    rw [if_pos h]
  · intro values multiplier h
    unfold iqr_detection
    rw [if_neg (by omega)]
    refine ⟨?_, rfl, rfl⟩
    simp [Bool.or_eq_true, decide_eq_true_eq]
  · norm_num [iqr_detection, h1, h3, List.getD]
  · norm_num [iqr_detection, h1, h3, List.getD]

/-- Witness for C9's bounded part at the concrete test input. -/
theorem C9_iqr_detection_spec_witness :
    ((iqr_detection [100, 105, 110, 108, 112, 115, 120, 500] (3/2)).is_anomaly
        = true ↔
      ([100, 105, 110, 108, 112, 115, 120, 500] : List ℚ).getD 7 0 <
        percentile [100, 105, 110, 108, 112, 115, 120, 500] 25 -
          (3/2) * (percentile [100, 105, 110, 108, 112, 115, 120, 500] 75 -
            percentile [100, 105, 110, 108, 112, 115, 120, 500] 25) ∨
      percentile [100, 105, 110, 108, 112, 115, 120, 500] 75 +
          (3/2) * (percentile [100, 105, 110, 108, 112, 115, 120, 500] 75 -
            percentile [100, 105, 110, 108, 112, 115, 120, 500] 25) <
        ([100, 105, 110, 108, 112, 115, 120, 500] : List ℚ).getD 7 0) ∧
    (iqr_detection [100, 105, 110, 108, 112, 115, 120, 500]
      (3/2)).details.current_value =
      some (([100, 105, 110, 108, 112, 115, 120, 500] : List ℚ).getD 7 0) := by
  have h := C9_iqr_detection_spec.2.1 [100, 105, 110, 108, 112, 115, 120, 500]
    (3/2) (by norm_num)
  exact ⟨h.1, h.2.2⟩

/-! ## Retry-loop lemmas -/

/-- One model-invocation attempt fails: `generate` either raises or
returns text that `json.loads` rejects. -/
def attemptFails (client : ModelClient) (o : JsonOracle) (i : ℕ) (p : String) :
    Prop :=
  ∀ r, client.generate i p = .ok r → o.isValidJson r = false

/-- The retry loop performs at most `remaining` calls to `generate`. -/
theorem retry_loop_length_le (client : ModelClient) (o : JsonOracle) :
    ∀ (rem att : ℕ) (p : String) (le : Option String),
      (retry_loop client o rem att p le).2.length ≤ rem := by
  intro rem
  induction rem with
  | zero => intro att p le; simp [retry_loop]
  | succ r ih =>
    intro att p le
    simp only [retry_loop]
    cases hg : client.generate att (resolve_prompt att p le) with
    | ok resp =>
      by_cases hv : o.isValidJson resp
      · simp [hv]
      · by_cases hr : r = 0
        · simp [hv, hr]
        · have := ih (att + 1) (resolve_prompt att p le) (some (o.decodeErrMsg resp))
          simp [hv, hr]
          omega
    | error e =>
      by_cases hr : r = 0
      · simp [hr]
      · have := ih (att + 1) (resolve_prompt att p le) (some e)
        simp [hr]
        omega

/-- The retry loop only returns text it verified to parse as JSON. -/
theorem retry_loop_ok_valid (client : ModelClient) (o : JsonOracle) :
    ∀ (rem att : ℕ) (p : String) (le : Option String) (t : String),
      (retry_loop client o rem att p le).1 = .ok t → o.isValidJson t = true := by
  intro rem
  induction rem with
  | zero => intro att p le t h; simp [retry_loop] at h
  | succ r ih =>
    intro att p le t h
    simp only [retry_loop] at h
    cases hg : client.generate att (resolve_prompt att p le) with
    | ok resp =>
      rw [hg] at h
      by_cases hv : o.isValidJson resp
      · simp [hv] at h
        rw [← h]
        exact hv
      · by_cases hr : r = 0
        · simp [hv, hr] at h
        · simp [hv, hr] at h
          exact ih (att + 1) (resolve_prompt att p le)
            (some (o.decodeErrMsg resp)) t h
    | error e =>
      rw [hg] at h
      by_cases hr : r = 0
      · simp [hr] at h
      · simp [hr] at h
        exact ih (att + 1) (resolve_prompt att p le) (some e) t h

/-- When every attempt fails, the retry loop raises and consumes exactly
`remaining` calls to `generate`. -/
theorem retry_loop_all_fail (client : ModelClient) (o : JsonOracle)
    (hf : ∀ i p, attemptFails client o i p) :
    ∀ (rem att : ℕ) (p : String) (le : Option String),
      (∃ e, (retry_loop client o rem att p le).1 = .error e) ∧
      (retry_loop client o rem att p le).2.length = rem := by
  intro rem
  induction rem with
  | zero => intro att p le; exact ⟨⟨"LLM retry limit exceeded", rfl⟩, rfl⟩
  | succ r ih =>
    intro att p le
    simp only [retry_loop]
    cases hg : client.generate att (resolve_prompt att p le) with
    | ok resp =>
      have hv : o.isValidJson resp = false :=
        hf att (resolve_prompt att p le) resp hg
      by_cases hr : r = 0
      · subst hr; simp [hv]
      · have := ih (att + 1) (resolve_prompt att p le) (some (o.decodeErrMsg resp))
        simp only [hv, hr]
        simp only [Bool.false_eq_true, if_false, if_neg hr]
        exact ⟨this.1, by simp [this.2]⟩
    | error e =>
      by_cases hr : r = 0
      · subst hr; simp
      · have := ih (att + 1) (resolve_prompt att p le) (some e)
        simp only [if_neg hr]
        exact ⟨this.1, by simp [this.2]⟩

/-- The first prompt recorded by a nonempty run of the retry loop is the
resolved prompt of its first iteration. -/
theorem retry_loop_head (client : ModelClient) (o : JsonOracle)
    (rem att : ℕ) (p : String) (le : Option String) (h : 1 ≤ rem) :
    (retry_loop client o rem att p le).2.getD 0 "" = resolve_prompt att p le := by
  cases rem with
  | zero => omega
  | succ r =>
    simp only [retry_loop]
    cases hg : client.generate att (resolve_prompt att p le) with
    | ok resp =>
      by_cases hv : o.isValidJson resp
      · simp [hv]
      · by_cases hr : r = 0
        · simp [hv, hr]
        · simp [hv, hr]
    | error e =>
      by_cases hr : r = 0
      · simp [hr]
      · simp [hr]

/-- Consecutive prompts recorded by the retry loop differ by exactly one
appended failure note, provided error messages are nonempty (Python's
truthiness test `if attempt > 0 and last_error:` skips the append for an
empty message). -/
theorem retry_loop_consecutive (client : ModelClient) (o : JsonOracle)
    (hgne : ∀ i p e, client.generate i p = .error e → e ≠ "")
    (hdne : ∀ r, o.decodeErrMsg r ≠ "") :
    ∀ (rem att : ℕ) (p : String) (le : Option String) (i : ℕ),
      i + 1 < (retry_loop client o rem att p le).2.length →
      ∃ e, (retry_loop client o rem att p le).2.getD (i + 1) "" =
        (retry_loop client o rem att p le).2.getD i "" ++ failNote e := by
  intro rem
  induction rem with
  | zero => intro att p le i h; simp [retry_loop] at h
  | succ r ih =>
    intro att p le i h
    simp only [retry_loop] at h ⊢
    cases hg : client.generate att (resolve_prompt att p le) with
    | ok resp =>
      rw [hg] at h
      by_cases hv : o.isValidJson resp
      · simp [hv] at h
      · by_cases hr : r = 0
        · simp [hv, hr] at h
        · simp only [hv, Bool.false_eq_true, if_false, if_neg hr] at h ⊢
          cases i with
          | zero =>
            refine ⟨o.decodeErrMsg resp, ?_⟩
            simp only [List.getD_cons_succ, List.getD_cons_zero]
            rw [retry_loop_head client o r (att + 1) (resolve_prompt att p le)
              (some (o.decodeErrMsg resp)) (by omega)]
            simp [resolve_prompt, hdne resp]
          | succ j =>
            simp only [List.getD_cons_succ]
            simp only [List.length_cons] at h
            exact ih (att + 1) (resolve_prompt att p le)
              (some (o.decodeErrMsg resp)) j (by omega)
    | error e =>
      rw [hg] at h
      by_cases hr : r = 0
      · simp [hr] at h
      · simp only [if_neg hr] at h ⊢
        cases i with
        | zero =>
          refine ⟨e, ?_⟩
          simp only [List.getD_cons_succ, List.getD_cons_zero]
          rw [retry_loop_head client o r (att + 1) (resolve_prompt att p le)
            (some e) (by omega)]
          simp [resolve_prompt, hgne att (resolve_prompt att p le) e hg]
        | succ j =>
          simp only [List.getD_cons_succ]
          simp only [List.length_cons] at h
          exact ih (att + 1) (resolve_prompt att p le) (some e) j (by omega)

/-! ## Orchestrator lemmas -/

/-- Feature routing on a metrics request with at least two values yields
the extracted `FeatureSet`. -/
theorem extract_features_eq_some (settings : Settings) (rq : InsightRequest)
    (name : Option String) (values : List ℚ) (fs : FeatureSet)
    (hdata : rq.data = .metrics name values) (hlen : 2 ≤ values.length)
    (hfs : extract_from_metrics settings values rq.context = .ok fs) :
    extract_features settings rq = .ok (some fs) := by
  unfold extract_features
  rw [hdata]
  have h1 : (values.isEmpty || decide (values.length < 2)) = false := by
    cases values with
    | nil => simp at hlen
    | cons a t =>
      simp only [List.length_cons] at hlen
      simp only [List.isEmpty_cons, Bool.false_or, decide_eq_false_iff_not,
        List.length_cons]
      omega
  simp only [h1, Bool.false_eq_true, if_false, hfs, Except.map]

/-- With a metrics request of at least two values and every model attempt
failing, `generate_insight` returns the fallback-path response built from
the extracted features, with one recorded prompt per configured retry. -/
theorem generate_insight_allfail (settings : Settings) (client : ModelClient)
    (o : JsonOracle) (pb : PromptOracle) (rq : InsightRequest)
    (name : Option String) (values : List ℚ)
    (hdata : rq.data = .metrics name values) (hlen : 2 ≤ values.length)
    (hf : ∀ i p, attemptFails client o i p) :
    ∃ fs tr, extract_from_metrics settings values rq.context = .ok fs ∧
      tr.length = settings.llm_max_retries ∧
      generate_insight settings client o pb rq =
        .ok (assemble_response settings client rq fs (get_metric_name rq)
               (generate_fallback_insight fs (get_metric_name rq)) true,
             .fromFallback, tr) := by
  obtain ⟨fs, hfs⟩ := extract_from_metrics_ok settings values rq.context hlen
  have hEF := extract_features_eq_some settings rq name values fs hdata hlen hfs
  unfold generate_insight
  rw [hEF, hdata]
  set prompt := pb.build (get_metric_name rq) fs (RequestData.metrics name values)
    (if 3 ≤ values.length then some (z_score_detection values 3) else none) with hp
  have hall := retry_loop_all_fail client o hf settings.llm_max_retries 0 prompt none
  obtain ⟨⟨e, he⟩, hlen2⟩ := hall
  refine ⟨fs, (call_llm_with_retry client o settings.llm_max_retries prompt).2,
    hfs, hlen2, ?_⟩
  unfold llm_phase
  simp only [call_llm_with_retry] at he ⊢
  rw [he]

/-- C8: the model-invocation loop makes at most `maxRetries` sequential
`generate` calls; each later prompt is the previous prompt with the
failure note appended (cumulatively, never reset), given nonempty error
messages; text that does not parse as JSON is never accepted (a parse
failure counts as an attempt failure); and when every attempt fails the
loop raises, routing a valid metrics request to the fallback path after
exactly `maxRetries` model calls and no more. -/
theorem C8_retry_loop_contract :
    ∀ (client : ModelClient) (o : JsonOracle) (max_retries : ℕ) (prompt : String),
      (call_llm_with_retry client o max_retries prompt).2.length ≤ max_retries
      ∧ (∀ t, (call_llm_with_retry client o max_retries prompt).1 = .ok t →
          o.isValidJson t = true)
      ∧ ((∀ i p e, client.generate i p = .error e → e ≠ "") →
         (∀ r, o.decodeErrMsg r ≠ "") →
         ∀ i, i + 1 < (call_llm_with_retry client o max_retries prompt).2.length →
           ∃ e, (call_llm_with_retry client o max_retries prompt).2.getD (i + 1) ""
             = (call_llm_with_retry client o max_retries prompt).2.getD i ""
               ++ failNote e)
      ∧ ((∀ i p, attemptFails client o i p) →
          (∃ e, (call_llm_with_retry client o max_retries prompt).1 = .error e)
          ∧ (call_llm_with_retry client o max_retries prompt).2.length = max_retries)
      ∧ (∀ (settings : Settings) (pb : PromptOracle) (rq : InsightRequest)
          (name : Option String) (values : List ℚ),
          settings.llm_max_retries = max_retries →
          rq.data = .metrics name values → 2 ≤ values.length →
          (∀ i p, attemptFails client o i p) →
          ∃ resp tr, generate_insight settings client o pb rq =
              .ok (resp, .fromFallback, tr)
            ∧ resp.metadata.fallback_used = true ∧ tr.length = max_retries) := by
  intro client o mr p
  refine ⟨retry_loop_length_le client o mr 0 p none,
          fun t => retry_loop_ok_valid client o mr 0 p none t,
          fun hg hd i hi => retry_loop_consecutive client o hg hd mr 0 p none i hi,
          fun hf => retry_loop_all_fail client o hf mr 0 p none,
          ?_⟩
  intro settings pb rq name values hmr hdata hlen hf
  obtain ⟨fs, tr, _, htr, hgen⟩ :=
    generate_insight_allfail settings client o pb rq name values hdata hlen hf
  exact ⟨_, tr, hgen, rfl, by rw [htr, hmr]⟩

/-- Witness for C8: with a client whose `generate` always fails, three
configured retries make exactly three calls, the loop raises, and the
orchestrator returns the fallback path. -/
theorem C8_retry_loop_contract_witness :
    ((∃ e, (call_llm_with_retry clientStub oracleStub 3 "P").1 = .error e)
      ∧ (call_llm_with_retry clientStub oracleStub 3 "P").2.length = 3)
    ∧ (∃ resp tr, generate_insight defaultSettings clientStub oracleStub
          promptStub rqTwo = .ok (resp, .fromFallback, tr)
        ∧ resp.metadata.fallback_used = true ∧ tr.length = 3) := by
  have h := C8_retry_loop_contract clientStub oracleStub 3 "P"
  refine ⟨h.2.2.2.1 ?_, h.2.2.2.2 defaultSettings promptStub rqTwo
    (some "cpu_usage") [100, 50] rfl rfl (by norm_num) ?_⟩
  all_goals
    intro i p r hr
    exact absurd hr (by simp [clientStub])

/-- C1: for a metrics request with at least two values and a model client
whose `generate` always fails, `generate_insight` does not raise: it
returns a response with `fallbackUsed = true` whose insight has confidence
exactly 0.60, exactly three recommended actions, and exactly three key
findings, one of which is the string
"Analysis based on rule-based thresholds (LLM unavailable)". -/
theorem C1_forced_model_failure_falls_back :
    ∀ (settings : Settings) (client : ModelClient) (o : JsonOracle)
      (pb : PromptOracle) (rq : InsightRequest) (name : Option String)
      (values : List ℚ),
      rq.data = .metrics name values → 2 ≤ values.length →
      (∀ i p, ∃ e, client.generate i p = .error e) →
      ∃ resp tr, generate_insight settings client o pb rq =
          .ok (resp, .fromFallback, tr)
        ∧ resp.metadata.fallback_used = true
        ∧ resp.insight.confidence = 3/5
        ∧ resp.insight.recommended_actions.length = 3
        ∧ resp.insight.key_findings.length = 3
        ∧ "Analysis based on rule-based thresholds (LLM unavailable)"
            ∈ resp.insight.key_findings := by
  intro settings client o pb rq name values hdata hlen hgen
  have hf : ∀ i p, attemptFails client o i p := by
    intro i p r hr
    obtain ⟨e, he⟩ := hgen i p
    rw [he] at hr
    cases hr
  obtain ⟨fs, tr, _, _, hgenr⟩ :=
    generate_insight_allfail settings client o pb rq name values hdata hlen hf
  refine ⟨_, tr, hgenr, rfl, rfl, rfl, rfl, ?_⟩
  simp [assemble_response, generate_fallback_insight]

/-- Witness for C1 at a concrete metrics request and the always-failing
client stub. -/
theorem C1_forced_model_failure_falls_back_witness :
    ∃ resp tr, generate_insight defaultSettings clientStub oracleStub
        promptStub rqTwo = .ok (resp, .fromFallback, tr)
      ∧ resp.metadata.fallback_used = true
      ∧ resp.insight.confidence = 3/5
      ∧ resp.insight.recommended_actions.length = 3
      ∧ resp.insight.key_findings.length = 3
      ∧ "Analysis based on rule-based thresholds (LLM unavailable)"
          ∈ resp.insight.key_findings :=
  C1_forced_model_failure_falls_back defaultSettings clientStub oracleStub
    promptStub rqTwo (some "cpu_usage") [100, 50] rfl (by norm_num)
    (fun i p => ⟨"boom", rfl⟩)

/-- Provenance analysis of the post-extraction phase: whichever branch
produced the response, the `fallback_used` flag matches the ghost source,
a fallback-sourced insight is the rule-based generator's output on the
response's own features and metric name, and a model-sourced insight is
the parse of a text the retry loop accepted. -/
theorem llm_phase_provenance (settings : Settings) (client : ModelClient)
    (o : JsonOracle) (rq : InsightRequest) (features : FeatureSet)
    (metric_name prompt : String) (resp : InsightResponse)
    (src : InsightSource) (tr : List String)
    (h : llm_phase settings client o rq features metric_name prompt =
      .ok (resp, src, tr)) :
    (resp.metadata.fallback_used = true ↔ src = .fromFallback)
    ∧ (src = .fromFallback →
        resp.insight = generate_fallback_insight resp.features
          resp.input_summary.metric_name)
    ∧ (src = .fromLLM →
        ∃ t, (call_llm_with_retry client o settings.llm_max_retries prompt).1 =
            .ok t
          ∧ o.parseInsight t = some resp.insight) := by
  unfold llm_phase at h
  dsimp only at h
  cases hr : (call_llm_with_retry client o settings.llm_max_retries prompt).1 with
  | error e =>
    rw [hr] at h
    simp only [Except.ok.injEq, Prod.mk.injEq] at h
    obtain ⟨h1, h2, h3⟩ := h
    subst h1
    subst h2
    refine ⟨by simp [assemble_response], fun _ => rfl,
      fun hc => InsightSource.noConfusion hc⟩
  | ok llm_output =>
    rw [hr] at h
    dsimp only at h
    cases hp : o.parseInsight llm_output with
    | none =>
      rw [hp] at h
      simp only [Except.ok.injEq, Prod.mk.injEq] at h
      obtain ⟨h1, h2, h3⟩ := h
      subst h1
      subst h2
      refine ⟨by simp [assemble_response], fun _ => rfl,
        fun hc => InsightSource.noConfusion hc⟩
    | some insight =>
      rw [hp] at h
      simp only [Except.ok.injEq, Prod.mk.injEq] at h
      obtain ⟨h1, h2, h3⟩ := h
      subst h1
      subst h2
      exact ⟨by simp [assemble_response], fun hc => InsightSource.noConfusion hc,
        fun _ => ⟨llm_output, rfl, hp⟩⟩

/-- C2: whenever `generate_insight` returns, `fallbackUsed` is true
exactly when the final `InsightOutput` was produced by the rule-based
fallback path, in which case it is `generate_fallback_insight` applied to
the response's own features and metric name; when false, the insight was
parsed and validated from a model text accepted by the retry loop. -/
theorem C2_fallback_flag_provenance :
    ∀ (settings : Settings) (client : ModelClient) (o : JsonOracle)
      (pb : PromptOracle) (rq : InsightRequest) (resp : InsightResponse)
      (src : InsightSource) (tr : List String),
      generate_insight settings client o pb rq = .ok (resp, src, tr) →
      (resp.metadata.fallback_used = true ↔ src = .fromFallback)
      ∧ (src = .fromFallback →
          resp.insight = generate_fallback_insight resp.features
            resp.input_summary.metric_name)
      ∧ (src = .fromLLM →
          ∃ p t, (call_llm_with_retry client o settings.llm_max_retries p).1 =
              .ok t
            ∧ o.parseInsight t = some resp.insight) := by
  intro settings client o pb rq resp src tr h
  unfold generate_insight at h
  cases hEF : extract_features settings rq with
  | error msg =>
    rw [hEF] at h
    simp only [Except.ok.injEq, Prod.mk.injEq] at h
    obtain ⟨h1, h2, h3⟩ := h
    subst h1
    subst h2
    refine ⟨by simp [assemble_response], fun _ => rfl,
      fun hc => InsightSource.noConfusion hc⟩
  | ok ofs =>
    cases ofs with
    | none =>
      rw [hEF] at h
      cases h
    | some fs =>
      rw [hEF] at h
      have hprov := llm_phase_provenance settings client o rq fs
        (get_metric_name rq) _ resp src tr h
      exact ⟨hprov.1, hprov.2.1, fun hc => ⟨_, hprov.2.2 hc⟩⟩

/-- Witness for C2 at a concrete request with a client that succeeds
immediately and an oracle that accepts and parses its text. -/
theorem C2_fallback_flag_provenance_witness :
    ((assemble_response defaultSettings clientOkStub rqTwo
        ⟨100, 50, -50, -50, Severity.critical⟩ "cpu_usage" insightStub
        false).metadata.fallback_used = true ↔
      (InsightSource.fromLLM = .fromFallback))
    ∧ (InsightSource.fromLLM = .fromFallback →
        (assemble_response defaultSettings clientOkStub rqTwo
          ⟨100, 50, -50, -50, Severity.critical⟩ "cpu_usage" insightStub
          false).insight =
        generate_fallback_insight
          (assemble_response defaultSettings clientOkStub rqTwo
            ⟨100, 50, -50, -50, Severity.critical⟩ "cpu_usage" insightStub
            false).features
          (assemble_response defaultSettings clientOkStub rqTwo
            ⟨100, 50, -50, -50, Severity.critical⟩ "cpu_usage" insightStub
            false).input_summary.metric_name)
    ∧ (InsightSource.fromLLM = .fromLLM →
        ∃ p t, (call_llm_with_retry clientOkStub oracleOkStub
            defaultSettings.llm_max_retries p).1 = .ok t
          ∧ oracleOkStub.parseInsight t = some (assemble_response defaultSettings
              clientOkStub rqTwo ⟨100, 50, -50, -50, Severity.critical⟩
              "cpu_usage" insightStub false).insight) := by
  have hgen : generate_insight defaultSettings clientOkStub oracleOkStub
      promptStub rqTwo =
      .ok (assemble_response defaultSettings clientOkStub rqTwo
             ⟨100, 50, -50, -50, Severity.critical⟩ "cpu_usage" insightStub
             false, .fromLLM, ["PROMPT"]) := by
    have hEF : extract_features defaultSettings rqTwo =
        .ok (some ⟨100, 50, -50, -50, Severity.critical⟩) := by
      have hfs : extract_from_metrics defaultSettings [100, 50] rqTwo.context =
          .ok ⟨100, 50, -50, -50, Severity.critical⟩ := by
        rw [extract_from_metrics_fields defaultSettings [100, 50] rqTwo.context
          (by norm_num)]
        norm_num [rawChangePercent, severitySpec, resolvedThresholds,
          defaultSettings, round2, roundHalfEven, rqTwo]
      exact extract_features_eq_some defaultSettings rqTwo (some "cpu_usage")
        [100, 50] _ rfl (by norm_num) hfs
    unfold generate_insight
    rw [hEF]
    unfold llm_phase
    rfl
  exact C2_fallback_flag_provenance defaultSettings clientOkStub oracleOkStub
    promptStub rqTwo _ _ _ hgen

/-- C4 counterexample: on a metrics request with a single value (and any
model behaviour, here the failing stub), `generate_insight` does not
propagate the feature-extraction `ValueError` — the outer handler absorbs
it, synthesizes a zeroed FeatureSet, and returns a fallback
`InsightOutput` with `fallbackUsed = true`. -/
theorem C4_counterexample :
    generate_insight defaultSettings clientStub oracleStub promptStub rqShort =
      .ok (assemble_response defaultSettings clientStub rqShort zeroedFeatureSet
             "cpu_usage" (generate_fallback_insight zeroedFeatureSet "cpu_usage")
             true,
           .fromFallback, []) := by
  have hEF : extract_features defaultSettings rqShort =
      .error "Need at least 2 values in data.values" := rfl
  unfold generate_insight
  rw [hEF]
  rfl

/-- The post-extraction phase always returns a response (every branch of
the retry/validate/fallback logic assembles one). -/
theorem llm_phase_isOk (settings : Settings) (client : ModelClient)
    (o : JsonOracle) (rq : InsightRequest) (features : FeatureSet)
    (metric_name prompt : String) :
    ∃ x, llm_phase settings client o rq features metric_name prompt = .ok x := by
  unfold llm_phase
  dsimp only
  cases (call_llm_with_retry client o settings.llm_max_retries prompt).1 with
  | error e => exact ⟨_, rfl⟩
  | ok t =>
    dsimp only
    cases o.parseInsight t with
    | none => exact ⟨_, rfl⟩
    | some insight => exact ⟨_, rfl⟩

/-- C4 (amended): `generate_insight` never propagates an error for a
metrics request; when the request has fewer than 2 values the extraction
failure is absorbed by the outer handler, which synthesizes a zeroed
FeatureSet and returns a fallback response with `fallbackUsed = true` and
no model calls. -/
theorem C4_metrics_never_raises :
    ∀ (settings : Settings) (client : ModelClient) (o : JsonOracle)
      (pb : PromptOracle) (rq : InsightRequest) (name : Option String)
      (values : List ℚ),
      rq.data = .metrics name values →
      (∃ x, generate_insight settings client o pb rq = .ok x)
      ∧ (values.length < 2 →
          generate_insight settings client o pb rq =
            .ok (assemble_response settings client rq zeroedFeatureSet
                   (get_metric_name rq)
                   (generate_fallback_insight zeroedFeatureSet
                     (get_metric_name rq)) true,
                 .fromFallback, [])) := by
  intro settings client o pb rq name values hdata
  by_cases hlen : values.length < 2
  · have hEF : extract_features settings rq =
        .error "Need at least 2 values in data.values" := by
      unfold extract_features
      rw [hdata]
      have h1 : (values.isEmpty || decide (values.length < 2)) = true := by
        simp only [Bool.or_eq_true, decide_eq_true_eq]
        right
        exact hlen
      simp only [h1, if_true]
    have hg : generate_insight settings client o pb rq =
        .ok (assemble_response settings client rq zeroedFeatureSet
               (get_metric_name rq)
               (generate_fallback_insight zeroedFeatureSet
                 (get_metric_name rq)) true,
             .fromFallback, []) := by
      unfold generate_insight
      rw [hEF]
    exact ⟨⟨_, hg⟩, fun _ => hg⟩
  · obtain ⟨fs, hfs⟩ := extract_from_metrics_ok settings values rq.context
      (by omega)
    have hEF := extract_features_eq_some settings rq name values fs hdata
      (by omega) hfs
    refine ⟨?_, fun hc => absurd hc hlen⟩
    unfold generate_insight
    rw [hEF]
    dsimp only
    exact llm_phase_isOk settings client o rq fs (get_metric_name rq) _

/-- Witness for C4's amended theorem at the one-value request. -/
theorem C4_metrics_never_raises_witness :
    (∃ x, generate_insight defaultSettings clientStub oracleStub promptStub
      rqShort = .ok x)
    ∧ (([5] : List ℚ).length < 2 →
        generate_insight defaultSettings clientStub oracleStub promptStub
          rqShort =
          .ok (assemble_response defaultSettings clientStub rqShort
                 zeroedFeatureSet (get_metric_name rqShort)
                 (generate_fallback_insight zeroedFeatureSet
                   (get_metric_name rqShort)) true,
               .fromFallback, [])) :=
  C4_metrics_never_raises defaultSettings clientStub oracleStub promptStub
    rqShort (some "cpu_usage") [5] rfl

/-- C10: for a request whose payload is not metrics (text or timeseries),
feature routing returns no FeatureSet; the `features` local is then bound
to `None`, so the outer handler's `'features' not in locals()` check skips
the zeroed synthesis and `_generate_fallback_insight(None, ...)` raises
`AttributeError`, which propagates out of `generate_insight` — regardless
of the model client's behaviour. -/
theorem C10_non_metrics_raises :
    ∀ (settings : Settings) (client : ModelClient) (o : JsonOracle)
      (pb : PromptOracle) (rq : InsightRequest),
      (∀ name values, rq.data ≠ .metrics name values) →
      generate_insight settings client o pb rq =
        .error (.attributeError
          "'NoneType' object has no attribute 'change_percent'") := by
  intro settings client o pb rq hnm
  have hEF : extract_features settings rq = .ok none := by
    unfold extract_features
    cases hd : rq.data with
    | metrics name values => exact absurd hd (hnm name values)
    | text content => rfl
    | timeseries name => rfl
  unfold generate_insight
  rw [hEF]

/-- Witness for C10 at a concrete text request (with the failing stub and
also implicitly any client, since the theorem quantifies over it). -/
theorem C10_non_metrics_raises_witness :
    generate_insight defaultSettings clientOkStub oracleOkStub promptStub
      rqText =
      .error (.attributeError
        "'NoneType' object has no attribute 'change_percent'") :=
  C10_non_metrics_raises defaultSettings clientOkStub oracleOkStub promptStub
    rqText (fun _ _ h => RequestData.noConfusion h)

/-- Closed form of `z_score_detection` on a list of at least three values
with positive variance. -/
theorem z_score_detection_eval (l : List ℚ) (threshold : ℚ)
    (h3 : ¬ l.length < 3) (hv : 0 < listVariance l) :
    z_score_detection l threshold =
      { is_anomaly := if (threshold : ℝ) <
          |(((l.getD (l.length - 1) 0 : ℚ) : ℝ) - ((listMean l : ℚ) : ℝ)) /
            Real.sqrt ((listVariance l : ℚ) : ℝ)| then true else false
        z_score := (((l.getD (l.length - 1) 0 : ℚ) : ℝ) -
            ((listMean l : ℚ) : ℝ)) / Real.sqrt ((listVariance l : ℚ) : ℝ)
        method := "z_score"
        details := { error := none, note := none
                     current_value := some (l.getD (l.length - 1) 0) } } := by
  have hstd : Real.sqrt ((listVariance l : ℚ) : ℝ) ≠ 0 := by
    refine ne_of_gt (Real.sqrt_pos.mpr ?_)
    exact_mod_cast hv
  unfold z_score_detection
  rw [if_neg h3]
  dsimp only
  rw [if_neg hstd]

/-- C3, as the code behaves: with threshold 3.0, `z_score_detection` on
`[100,105,98,102,110]` reports no anomaly (as the claim states), but on
`[100,105,98,102,500]` it ALSO reports no anomaly, with z-score below 3 —
the population standard deviation over the full 5-point sequence is
inflated by the outlier itself (std ≈ 159.5, z ≈ 2.00), so the claim's
(and the repository test suite's) expected `isAnomaly = true`, `z > 3.0`
is not what the code computes. -/
theorem C3_z_score_code_behaviour :
    (z_score_detection [100, 105, 98, 102, 110] 3).is_anomaly = false
    ∧ (z_score_detection [100, 105, 98, 102, 500] 3).is_anomaly = false
    ∧ (z_score_detection [100, 105, 98, 102, 500] 3).z_score < 3 := by
  have hvar1 : listVariance [100, 105, 98, 102, 110] = 88/5 := by
    norm_num [listVariance, listMean]
  have hmean1 : listMean [100, 105, 98, 102, 110] = 103 := by
    norm_num [listMean]
  have hvar2 : listVariance [100, 105, 98, 102, 500] = 127228/5 := by
    norm_num [listVariance, listMean]
  have hmean2 : listMean [100, 105, 98, 102, 500] = 181 := by
    norm_num [listMean]
  refine ⟨?_, ?_, ?_⟩
  · rw [z_score_detection_eval [100, 105, 98, 102, 110] 3 (by norm_num)
      (by rw [hvar1]; norm_num)]
    rw [hvar1, hmean1]
    have hget : (([100, 105, 98, 102, 110] : List ℚ).getD
        (([100, 105, 98, 102, 110] : List ℚ).length - 1) 0) = 110 := by
      norm_num [List.getD]
    rw [hget]
    have hcast : (((88/5 : ℚ) : ℝ)) = 88/5 := by norm_num
    rw [hcast]
    have hs2 : Real.sqrt (88/5 : ℝ) ^ 2 = 88/5 := Real.sq_sqrt (by norm_num)
    have hspos : (0 : ℝ) < Real.sqrt (88/5 : ℝ) :=
      Real.sqrt_pos.mpr (by norm_num)
    have hz : (((110 : ℚ) : ℝ) - ((103 : ℚ) : ℝ)) / Real.sqrt (88/5 : ℝ)
        < 3 := by
      rw [div_lt_iff₀ hspos]
      push_cast
      nlinarith [hs2, hspos]
    have hzpos : (0 : ℝ) < (((110 : ℚ) : ℝ) - ((103 : ℚ) : ℝ)) /
        Real.sqrt (88/5 : ℝ) := by
      apply div_pos
      · push_cast; norm_num
      · exact hspos
    simp only
    rw [if_neg]
    rw [abs_of_pos hzpos]
    exact not_lt.mpr hz.le
  · rw [z_score_detection_eval [100, 105, 98, 102, 500] 3 (by norm_num)
      (by rw [hvar2]; norm_num)]
    rw [hvar2, hmean2]
    have hget : (([100, 105, 98, 102, 500] : List ℚ).getD
        (([100, 105, 98, 102, 500] : List ℚ).length - 1) 0) = 500 := by
      norm_num [List.getD]
    rw [hget]
    have hcast : (((127228/5 : ℚ) : ℝ)) = 127228/5 := by norm_num
    rw [hcast]
    have hs2 : Real.sqrt (127228/5 : ℝ) ^ 2 = 127228/5 :=
      Real.sq_sqrt (by norm_num)
    have hspos : (0 : ℝ) < Real.sqrt (127228/5 : ℝ) :=
      Real.sqrt_pos.mpr (by norm_num)
    have hz : (((500 : ℚ) : ℝ) - ((181 : ℚ) : ℝ)) /
        Real.sqrt (127228/5 : ℝ) < 3 := by
      rw [div_lt_iff₀ hspos]
      push_cast
      nlinarith [hs2, hspos]
    have hzpos : (0 : ℝ) < (((500 : ℚ) : ℝ) - ((181 : ℚ) : ℝ)) /
        Real.sqrt (127228/5 : ℝ) := by
      apply div_pos
      · push_cast; norm_num
      · exact hspos
    simp only
    rw [if_neg]
    rw [abs_of_pos hzpos]
    exact not_lt.mpr hz.le
  · rw [z_score_detection_eval [100, 105, 98, 102, 500] 3 (by norm_num)
      (by rw [hvar2]; norm_num)]
    rw [hvar2, hmean2]
    have hget : (([100, 105, 98, 102, 500] : List ℚ).getD
        (([100, 105, 98, 102, 500] : List ℚ).length - 1) 0) = 500 := by
      norm_num [List.getD]
    rw [hget]
    have hcast : (((127228/5 : ℚ) : ℝ)) = 127228/5 := by norm_num
    rw [hcast]
    have hs2 : Real.sqrt (127228/5 : ℝ) ^ 2 = 127228/5 :=
      Real.sq_sqrt (by norm_num)
    have hspos : (0 : ℝ) < Real.sqrt (127228/5 : ℝ) :=
      Real.sqrt_pos.mpr (by norm_num)
    have hz : (((500 : ℚ) : ℝ) - ((181 : ℚ) : ℝ)) /
        Real.sqrt (127228/5 : ℝ) < 3 := by
      rw [div_lt_iff₀ hspos]
      push_cast
      nlinarith [hs2, hspos]
    simpa using hz

end Pythia
